import Mathlib

/-!
Verification of the Sidoarjo stunting-dashboard pipeline (`src/app.py`)
against its natural-language specification.

The embedding models the data-processing core of `app.py`:

* a `Record` is one row of the screening CSV (the columns actually read by
  the code: `nama_kecamatan`, `nama_puskesmas`, `jenis_kelamin_balita`,
  `stunting_balita`, `status_tbu`, `status_bbtb`, `status_bbu`);
* `aggregate_by_kecamatan` follows lines 65-108: iterate over the
  first-seen-order distinct raw `nama_kecamatan` values, filter the frame
  to that value, count rows, and classify the rounded percentage;
* Python floats are modelled as exact rationals, and Python's `round(x, 2)`
  as round-half-to-even on rationals (`round2`);
* the merge loop of `create_choropleth_map` (lines 114-127) is modelled as
  a function from the geojson value and the stats table to the geojson
  object's state after the call, since the source writes into
  `feature['properties']` in place; `none` models the `KeyError` raised by
  the direct subscript `feature['properties']['WADMKC']` on line 115;
* the sidebar filtering and the re-aggregation fallback of `main`
  (lines 220-230) are `filterRecords` and `displayStats`.
-/

/-- One row of the screening CSV, restricted to the columns `app.py` reads. -/
structure Record where
  nama_kecamatan : String
  nama_puskesmas : String
  jenis_kelamin_balita : String
  stunting_balita : String
  status_tbu : String
  status_bbtb : String
  status_bbu : String
deriving DecidableEq, Repr

/-- The three derived prediction fields set by lines 93-104 of `app.py`. -/
structure Prediksi where
  prediksi : String
  tren : String
  kategori : String
deriving DecidableEq, Repr

/-- One row of the aggregated stats frame built by `aggregate_by_kecamatan`. -/
structure KecStats where
  kecamatan : String
  total : Nat
  stunting : Nat
  normal : Nat
  persentase_stunting : ℚ
  pendek : Nat
  sangat_pendek : Nat
  gizi_kurang : Nat
  gizi_baik : Nat
  bb_kurang : Nat
  bb_normal : Nat
  laki_laki : Nat
  perempuan : Nat
  prediksi : String
  tren : String
  kategori : String
deriving DecidableEq, Repr

/-- Round a rational to the nearest integer, ties to even: the tie-breaking
rule of Python's built-in `round`. -/
def roundHalfEven (q : ℚ) : ℤ :=
  let f : ℤ := Int.fdiv q.num (q.den : ℤ)
  let r : ℚ := q - (f : ℚ)
  if r < 1 / 2 then f
  else if 1 / 2 < r then f + 1
  else if f % 2 = 0 then f else f + 1

/-- Python's `round(x, 2)`: round to two decimal places. -/
def round2 (q : ℚ) : ℚ := (roundHalfEven (q * 100) : ℚ) / 100

/-- Lines 93-104 of `app.py`: the threshold classification applied to the
(already rounded) stunting percentage of one kecamatan. -/
def klasifikasi (p : ℚ) : Prediksi :=
  if p > 20 then ⟨"Perlu Perhatian", "+2.5%", "Tinggi"⟩
  else if p > 10 then ⟨"Perlu Monitoring", "+1.2%", "Sedang"⟩
  else ⟨"Stabil", "+0.5%", "Rendah"⟩

/-- Pandas `Series.unique` with a seen-accumulator: keep each value's first
occurrence, drop later repeats. -/
def uniqueFirstAux (seen : List String) : List String → List String
  | [] => []
  | x :: xs =>
    if seen.contains x then uniqueFirstAux seen xs
    else x :: uniqueFirstAux (x :: seen) xs

/-- Pandas `Series.unique`: the distinct values in first-appearance order. -/
def uniqueFirst (l : List String) : List String := uniqueFirstAux [] l

/-- The loop body of `aggregate_by_kecamatan` (lines 70-106): the stats row
built for one raw kecamatan value. -/
def statsFor (df : List Record) (kecamatan : String) : KecStats :=
  let kec_data := df.filter (fun r => r.nama_kecamatan == kecamatan)
  let total := kec_data.length
  let stunting := (kec_data.filter (fun r => r.stunting_balita == "Ya")).length
  let normal := total - stunting
  let persentase : ℚ :=
    if total > 0 then round2 ((stunting : ℚ) / (total : ℚ) * 100) else 0
  let pred := klasifikasi persentase
  { kecamatan := kecamatan
    total := total
    stunting := stunting
    normal := normal
    persentase_stunting := persentase
    pendek := (kec_data.filter (fun r => r.status_tbu == "Pendek")).length
    sangat_pendek := (kec_data.filter (fun r => r.status_tbu == "Sangat Pendek")).length
    gizi_kurang := (kec_data.filter (fun r => r.status_bbtb == "Gizi Kurang")).length
    gizi_baik := (kec_data.filter (fun r => r.status_bbtb == "Gizi Baik")).length
    bb_kurang := (kec_data.filter (fun r => r.status_bbu == "BB Kurang")).length
    bb_normal := (kec_data.filter (fun r => r.status_bbu == "BB Normal")).length
    laki_laki := (kec_data.filter (fun r => r.jenis_kelamin_balita == "Laki - Laki")).length
    perempuan := (kec_data.filter (fun r => r.jenis_kelamin_balita == "Perempuan")).length
    prediksi := pred.prediksi
    tren := pred.tren
    kategori := pred.kategori }

/-- Lines 65-108 of `app.py`: group the frame by the raw `nama_kecamatan`
value and build one stats row per distinct value, in first-seen order. -/
def aggregate_by_kecamatan (df : List Record) : List KecStats :=
  (uniqueFirst (df.map (fun r => r.nama_kecamatan))).map (statsFor df)

/-- A JSON value stored in a geojson feature's `properties` dict: the
kinds that occur here are strings, Python ints and Python floats
(modelled as rationals). -/
inductive Val where
  | str (s : String)
  | int (n : ℤ)
  | rat (q : ℚ)
deriving DecidableEq, Repr

/-- One geojson feature: an opaque geometry payload plus the `properties`
dict, modelled as an insertion-ordered association list. -/
structure Feature where
  geometry : String
  properties : List (String × Val)
deriving DecidableEq, Repr

/-- The parsed geojson value: its `features` array. -/
structure GeoJson where
  features : List Feature
deriving DecidableEq, Repr

/-- Python dict read `d[k]` / `d.get(k)`: first binding of `k`, if any. -/
def getProp : List (String × Val) → String → Option Val
  | [], _ => none
  | (k', v) :: rest, k => if k' == k then some v else getProp rest k

/-- Python dict write `d[k] = v`: replace the binding in place if `k` is
present, else append it (dicts preserve insertion order). -/
def setProp : List (String × Val) → String → Val → List (String × Val)
  | [], k, v => [(k, v)]
  | (k', v') :: rest, k, v =>
    if k' == k then (k, v) :: rest else (k', v') :: setProp rest k v

/-- Pandas comparison `stats_df['kecamatan'] == kecamatan_name` for one
cell: the string cell equals the scalar only when the scalar is a string
with the same text. -/
def valEqStr (v : Val) (s : String) : Bool :=
  match v with
  | .str t => s == t
  | _ => false

/-- One iteration of the merge loop (lines 114-127 of `app.py`) on one
feature: read `properties['WADMKC']` (`none` models the `KeyError` when
the key is absent), take the first stats row whose `kecamatan` equals it,
and write the four derived properties into the feature's dict; with no
matching row, write the zero-filled values and `'Tidak Ada Data'`. -/
def joinFeature (stats : List KecStats) (f : Feature) : Option Feature :=
  match getProp f.properties "WADMKC" with
  | none => none
  | some kecamatan_name =>
    match (stats.filter (fun s => valEqStr kecamatan_name s.kecamatan)).head? with
    | some s =>
      let p1 := setProp f.properties "stunting_count" (.int s.stunting)
      let p2 := setProp p1 "persentase_stunting" (.rat s.persentase_stunting)
      let p3 := setProp p2 "total_balita" (.int s.total)
      let p4 := setProp p3 "kategori" (.str s.kategori)
      some { f with properties := p4 }
    | none =>
      let p1 := setProp f.properties "stunting_count" (.int 0)
      let p2 := setProp p1 "persentase_stunting" (.int 0)
      let p3 := setProp p2 "total_balita" (.int 0)
      let p4 := setProp p3 "kategori" (.str "Tidak Ada Data")
      some { f with properties := p4 }

/-- The merge loop over all features, in order. -/
def mergeFeatures (stats : List KecStats) : List Feature → Option (List Feature)
  | [] => some []
  | f :: fs =>
    match joinFeature stats f with
    | none => none
    | some f' =>
      match mergeFeatures stats fs with
      | none => none
      | some fs' => some (f' :: fs')

/-- The data-merging part of `create_choropleth_map` (lines 114-127 of
`app.py`): the figure construction below it is rendering and out of scope.
The source mutates the `geojson` argument in place, so the result here is
the state of the caller's geojson object after the call; `none` models the
`KeyError` escaping from line 115. -/
def create_choropleth_map_merge (g : GeoJson) (stats : List KecStats) :
    Option GeoJson :=
  (mergeFeatures stats g.features).map GeoJson.mk

/-- The `WADMKC` join key of each feature, in feature order. -/
def featureKeys (g : GeoJson) : List (Option Val) :=
  g.features.map (fun f => getProp f.properties "WADMKC")

/-- Lines 220-224 of `app.py`: the sidebar filter. Each dimension is
restricted only when its multiselect selection is nonempty and does not
contain the sentinel `'Semua'`; `df.copy()` and boolean-mask selection
build new frames, so the input list is untouched. -/
def filterRecords (df : List Record) (selKec selPus : List String) :
    List Record :=
  let filtered₁ :=
    if !(selKec.contains "Semua") && !selKec.isEmpty then
      df.filter (fun r => selKec.contains r.nama_kecamatan)
    else df
  if !(selPus.contains "Semua") && !selPus.isEmpty then
    filtered₁.filter (fun r => selPus.contains r.nama_puskesmas)
  else filtered₁

/-- Lines 226-230 of `app.py`: re-aggregate the filtered frame when it is
nonempty, otherwise fall back to the stats of the full frame. -/
def displayStats (df : List Record) (selKec selPus : List String) :
    List KecStats :=
  let stats_df := aggregate_by_kecamatan df
  let filtered_df := filterRecords df selKec selPus
  if !filtered_df.isEmpty then aggregate_by_kecamatan filtered_df
  else stats_df

/-- Drop leading and trailing whitespace characters. -/
def trimChars (l : List Char) : List Char :=
  ((l.dropWhile (fun c => c.isWhitespace)).reverse.dropWhile
    (fun c => c.isWhitespace)).reverse

/-- Modelled from the spec (section 4.1), for comparison with the source:
the canonicalization the spec calls `normalize` — trim surrounding
whitespace, then uppercase. No function of `app.py` computes this. -/
def normalizeSpec (s : String) : String := ⟨(trimChars s.data).map Char.toUpper⟩

/-- A screening row with the given kecamatan name and fixed other fields,
used for concrete witnesses. -/
def mkRecord (kecamatan : String) : Record :=
  ⟨kecamatan, "Puskesmas X", "Laki - Laki", "Ya", "Pendek", "Gizi Kurang", "BB Kurang"⟩

/-- A two-row frame on one kecamatan: one stunting row and one row whose
flag is an arbitrary non-`'Ya'` value. -/
def exDf : List Record :=
  [mkRecord "A", { mkRecord "A" with stunting_balita := "Tidak" }]

/-- A catalog with a single feature named `A`. -/
def gA : GeoJson := ⟨[⟨"geomA", [("WADMKC", Val.str "A")]⟩]⟩

/-- A catalog with two distinct features carrying the same name `A`. -/
def gDup : GeoJson :=
  ⟨[⟨"geom1", [("WADMKC", Val.str "A")]⟩, ⟨"geom2", [("WADMKC", Val.str "A")]⟩]⟩

/-- A catalog whose single feature lacks the `WADMKC` property, carrying
its name only under the alternate `WADMKEC` key. -/
def gNoKey : GeoJson := ⟨[⟨"geomX", [("WADMKEC", Val.str "A")]⟩]⟩

/-- A stats row keyed `B`, built by the aggregator from a one-row frame. -/
def exStatB : KecStats := statsFor [mkRecord "B"] "B"

/-- The state of `gA` after the merge loop runs with an empty stats table:
the four derived properties have been written into the feature's dict. -/
def gAJoined : GeoJson :=
  ⟨[⟨"geomA", [("WADMKC", Val.str "A"), ("stunting_count", Val.int 0),
    ("persentase_stunting", Val.int 0), ("total_balita", Val.int 0),
    ("kategori", Val.str "Tidak Ada Data")]⟩]⟩

/-! ## Helper lemmas -/

theorem length_filter_not_add (p : α → Bool) (l : List α) :
    (l.filter p).length + (l.filter (fun a => !(p a))).length = l.length := by
  induction l with
  | nil => rfl
  | cons a t ih => cases h : p a <;> simp [List.filter_cons, h] <;> omega

theorem getProp_setProp_self (props : List (String × Val)) (k : String) (v : Val) :
    getProp (setProp props k v) k = some v := by
  induction props with
  | nil => simp [setProp, getProp]
  | cons kv rest ih =>
    obtain ⟨k', v'⟩ := kv
    by_cases h : k' = k
    · subst h; simp [setProp, getProp]
    · simp [setProp, getProp, h, ih]

theorem getProp_setProp_ne (props : List (String × Val)) (k k' : String) (v : Val)
    (h : k' ≠ k) :
    getProp (setProp props k v) k' = getProp props k' := by
  induction props with
  | nil => simp [setProp, getProp, Ne.symm h]
  | cons kv rest ih =>
    obtain ⟨a, b⟩ := kv
    by_cases ha : a = k
    · subst ha; simp [setProp, getProp, Ne.symm h]
    · simp [setProp, getProp, ha, ih]

theorem joinFeature_geometry {stats : List KecStats} {f f' : Feature}
    (h : joinFeature stats f = some f') : f'.geometry = f.geometry := by
  unfold joinFeature at h
  split at h
  · cases h
  · split at h
    · cases h; rfl
    · cases h; rfl

theorem joinFeature_wadmkc {stats : List KecStats} {f f' : Feature}
    (h : joinFeature stats f = some f') :
    getProp f'.properties "WADMKC" = getProp f.properties "WADMKC" := by
  unfold joinFeature at h
  split at h
  · cases h
  · split at h
    · cases h
      rw [getProp_setProp_ne _ _ _ _ (by decide), getProp_setProp_ne _ _ _ _ (by decide),
        getProp_setProp_ne _ _ _ _ (by decide), getProp_setProp_ne _ _ _ _ (by decide)]
    · cases h
      rw [getProp_setProp_ne _ _ _ _ (by decide), getProp_setProp_ne _ _ _ _ (by decide),
        getProp_setProp_ne _ _ _ _ (by decide), getProp_setProp_ne _ _ _ _ (by decide)]

theorem joinFeature_kategori_isSome {stats : List KecStats} {f f' : Feature}
    (h : joinFeature stats f = some f') :
    (getProp f'.properties "kategori").isSome := by
  unfold joinFeature at h
  split at h
  · cases h
  · split at h
    · cases h; rw [getProp_setProp_self]; rfl
    · cases h; rw [getProp_setProp_self]; rfl

theorem joinFeature_zero_fill {stats : List KecStats} {f f' : Feature} {kv : Val}
    (h : joinFeature stats f = some f')
    (hkv : getProp f.properties "WADMKC" = some kv)
    (hmiss : stats.filter (fun s => valEqStr kv s.kecamatan) = []) :
    getProp f'.properties "stunting_count" = some (.int 0) ∧
    getProp f'.properties "persentase_stunting" = some (.int 0) ∧
    getProp f'.properties "total_balita" = some (.int 0) ∧
    getProp f'.properties "kategori" = some (.str "Tidak Ada Data") := by
  unfold joinFeature at h
  split at h
  · cases h
  · next kv' heq =>
    rw [hkv] at heq
    cases heq
    split at h
    · next s hhit => rw [hmiss] at hhit; cases hhit
    · cases h
      refine ⟨?_, ?_, ?_, ?_⟩
      · rw [getProp_setProp_ne _ _ _ _ (by decide), getProp_setProp_ne _ _ _ _ (by decide),
          getProp_setProp_ne _ _ _ _ (by decide), getProp_setProp_self]
      · rw [getProp_setProp_ne _ _ _ _ (by decide), getProp_setProp_ne _ _ _ _ (by decide),
          getProp_setProp_self]
      · rw [getProp_setProp_ne _ _ _ _ (by decide), getProp_setProp_self]
      · rw [getProp_setProp_self]

theorem joinFeature_isSome (stats : List KecStats) (f : Feature) :
    (joinFeature stats f).isSome = (getProp f.properties "WADMKC").isSome := by
  unfold joinFeature
  split
  · next heq => rw [heq]; rfl
  · next kv heq => rw [heq]; split <;> rfl

theorem mergeFeatures_forall2 (stats : List KecStats) :
    ∀ (fs : List Feature) (fs' : List Feature), mergeFeatures stats fs = some fs' →
      List.Forall₂ (fun f f' => joinFeature stats f = some f') fs fs' := by
  intro fs
  induction fs with
  | nil =>
    intro fs' h
    cases h
    exact List.Forall₂.nil
  | cons f t ih =>
    intro fs' h
    unfold mergeFeatures at h
    split at h
    · cases h
    · next f₁ hj =>
      split at h
      · cases h
      · next t₁ hm =>
        cases h
        exact List.Forall₂.cons hj (ih _ hm)

theorem mergeFeatures_isSome (stats : List KecStats) :
    ∀ fs : List Feature, (mergeFeatures stats fs).isSome ↔
      ∀ f ∈ fs, (getProp f.properties "WADMKC").isSome := by
  intro fs
  induction fs with
  | nil => simp [mergeFeatures]
  | cons f t ih =>
    constructor
    · intro h g hg
      unfold mergeFeatures at h
      split at h
      · cases h
      · next f₁ hj =>
        split at h
        · cases h
        · next t₁ hm =>
          rcases List.mem_cons.mp hg with rfl | hg'
          · rw [← joinFeature_isSome stats g, hj]; rfl
          · exact (ih.mp (by rw [hm]; rfl)) g hg'
    · intro h
      have hf : (joinFeature stats f).isSome := by
        rw [joinFeature_isSome]; exact h f (List.mem_cons_self f t)
      have ht : (mergeFeatures stats t).isSome :=
        ih.mpr (fun g hg => h g (List.mem_cons_of_mem f hg))
      unfold mergeFeatures
      cases hj : joinFeature stats f with
      | none => rw [hj] at hf; cases hf
      | some f₁ =>
        cases hm : mergeFeatures stats t with
        | none => rw [hm] at ht; cases ht
        | some t₁ => rfl

theorem forall2_map_eq {α β γ : Type _} {R : α → β → Prop} {F : β → γ} {G : α → γ}
    (hFG : ∀ a b, R a b → F b = G a) :
    ∀ {l : List α} {l' : List β}, List.Forall₂ R l l' → l'.map F = l.map G := by
  intro l l' h
  induction h with
  | nil => rfl
  | cons hab _ ih => simp [ih, hFG _ _ hab]

theorem forall2_mem_right {α β : Type _} {R : α → β → Prop} :
    ∀ {l : List α} {l' : List β}, List.Forall₂ R l l' → ∀ b ∈ l', ∃ a ∈ l, R a b := by
  intro l l' h
  induction h with
  | nil => intro b hb; cases hb
  | cons hab htail ih =>
    intro b hb
    rcases List.mem_cons.mp hb with rfl | hb'
    · exact ⟨_, List.mem_cons_self _ _, hab⟩
    · rcases ih b hb' with ⟨a, ha, hr⟩
      exact ⟨a, List.mem_cons_of_mem _ ha, hr⟩

theorem joinFeature_append_no_match (stats extra : List KecStats) (f : Feature)
    (hyp : ∀ st ∈ extra, ∀ kv, getProp f.properties "WADMKC" = some kv →
      valEqStr kv st.kecamatan = false) :
    joinFeature (stats ++ extra) f = joinFeature stats f := by
  unfold joinFeature
  cases hkv : getProp f.properties "WADMKC" with
  | none => rfl
  | some kv =>
    have hfiltextra : extra.filter (fun s => valEqStr kv s.kecamatan) = [] :=
      List.filter_eq_nil_iff.mpr (fun st hst => by simp [hyp st hst kv hkv])
    simp only [List.filter_append, hfiltextra, List.append_nil]

theorem mergeFeatures_append_no_match (stats extra : List KecStats) :
    ∀ fs : List Feature,
      (∀ st ∈ extra, ∀ f ∈ fs, ∀ kv, getProp f.properties "WADMKC" = some kv →
        valEqStr kv st.kecamatan = false) →
      mergeFeatures (stats ++ extra) fs = mergeFeatures stats fs := by
  intro fs
  induction fs with
  | nil => intro _; rfl
  | cons f t ih =>
    intro hyp
    have hf : joinFeature (stats ++ extra) f = joinFeature stats f :=
      joinFeature_append_no_match stats extra f
        (fun st hst kv hkv => hyp st hst f (List.mem_cons_self f t) kv hkv)
    have ht : mergeFeatures (stats ++ extra) t = mergeFeatures stats t :=
      ih (fun st hst g hg kv hkv => hyp st hst g (List.mem_cons_of_mem f hg) kv hkv)
    unfold mergeFeatures
    rw [hf, ht]

theorem merge_some_elim {g : GeoJson} {stats : List KecStats} {g' : GeoJson}
    (h : create_choropleth_map_merge g stats = some g') :
    mergeFeatures stats g.features = some g'.features := by
  unfold create_choropleth_map_merge at h
  rcases Option.map_eq_some'.mp h with ⟨fs', hm, hmk⟩
  cases hmk
  exact hm

theorem count_eq_one_of_mem_nodup {α : Type _} [BEq α] [LawfulBEq α]
    {l : List α} {a : α} (hnd : l.Nodup) (ha : a ∈ l) : l.count a = 1 := by
  induction l with
  | nil => cases ha
  | cons x t ih =>
    rcases List.nodup_cons.mp hnd with ⟨hx, ht⟩
    rcases List.mem_cons.mp ha with rfl | ha'
    · rw [List.count_cons_self, List.count_eq_zero.mpr hx]
    · have hne : ¬ a == x := by
        simp only [beq_iff_eq]
        rintro rfl
        exact hx ha'
      rw [List.count_cons_of_ne (by simpa using hne), ih ht ha']

/-! ## Claim theorems -/

/-- Claim C1: the risk classifier assigns category `Tinggi` (High) with
label `Perlu Perhatian` (Needs Attention) exactly when the percentage
exceeds 20, `Sedang` (Medium) with `Perlu Monitoring` (Needs Monitoring)
exactly when it lies in (10, 20], and `Rendah` (Low) with `Stabil`
(Stable) exactly when it is at most 10; in particular 20.0 is classified
Medium and 10.0 Low. -/
theorem klasifikasi_boundary_semantics :
    ∀ p : ℚ,
      (((klasifikasi p).kategori = "Tinggi" ∧
          (klasifikasi p).prediksi = "Perlu Perhatian") ↔ 20 < p) ∧
      (((klasifikasi p).kategori = "Sedang" ∧
          (klasifikasi p).prediksi = "Perlu Monitoring") ↔ (10 < p ∧ p ≤ 20)) ∧
      (((klasifikasi p).kategori = "Rendah" ∧
          (klasifikasi p).prediksi = "Stabil") ↔ p ≤ 10) ∧
      (klasifikasi 20).kategori = "Sedang" ∧ (klasifikasi 10).kategori = "Rendah" := by
  intro p
  refine ⟨?_, ?_, ?_, by decide, by decide⟩ <;>
    · unfold klasifikasi
      split_ifs with h1 h2 <;> simp_all <;> linarith

/-- Claim C2: every stats row produced by the aggregation has
`persentase_stunting = round(stunting / total * 100, 2)` when its total is
positive, and `0` when the total is zero, so the division is guarded. -/
theorem persentase_formula :
    ∀ (df : List Record) (s : KecStats), s ∈ aggregate_by_kecamatan df →
      (0 < s.total →
        s.persentase_stunting = round2 ((s.stunting : ℚ) / (s.total : ℚ) * 100)) ∧
      (s.total = 0 → s.persentase_stunting = 0) := by
  intro df s hs
  rcases List.mem_map.mp hs with ⟨k, _, rfl⟩
  constructor
  · intro hpos
    simp only [statsFor] at hpos ⊢
    rw [if_pos hpos]
  · intro h0
    simp only [statsFor] at h0 ⊢
    rw [if_neg (by omega)]

/-- Witness for C2 at a concrete two-row frame. -/
theorem persentase_formula_witness :
    statsFor exDf "A" ∈ aggregate_by_kecamatan exDf ∧
    0 < (statsFor exDf "A").total ∧
    (statsFor exDf "A").persentase_stunting =
      round2 (((statsFor exDf "A").stunting : ℚ) /
        ((statsFor exDf "A").total : ℚ) * 100) :=
  ⟨List.mem_map.mpr ⟨"A", by decide, rfl⟩, by decide,
    (persentase_formula exDf (statsFor exDf "A")
      (List.mem_map.mpr ⟨"A", by decide, rfl⟩)).1 (by decide)⟩

/-- Claim C9: for every aggregated row, stunting + normal = total and
stunting is at most total; normal counts exactly the partition's records
whose stunting flag is any value other than `'Ya'`. -/
theorem stunting_normal_partition :
    ∀ (df : List Record) (s : KecStats), s ∈ aggregate_by_kecamatan df →
      s.stunting + s.normal = s.total ∧ s.stunting ≤ s.total ∧
      s.normal = ((df.filter (fun r => r.nama_kecamatan == s.kecamatan)).filter
        (fun r => !(r.stunting_balita == "Ya"))).length := by
  intro df s hs
  rcases List.mem_map.mp hs with ⟨k, _, rfl⟩
  have hle := List.length_filter_le (fun r => r.stunting_balita == "Ya")
    (df.filter (fun r => r.nama_kecamatan == k))
  have hsum := length_filter_not_add (fun r => r.stunting_balita == "Ya")
    (df.filter (fun r => r.nama_kecamatan == k))
  refine ⟨?_, ?_, ?_⟩ <;> simp only [statsFor] <;> omega

/-- Witness for C9 on a frame with one `'Ya'` row and one `'Tidak'` row. -/
theorem stunting_normal_partition_witness :
    statsFor exDf "A" ∈ aggregate_by_kecamatan exDf ∧
    (statsFor exDf "A").stunting + (statsFor exDf "A").normal =
      (statsFor exDf "A").total :=
  ⟨List.mem_map.mpr ⟨"A", by decide, rfl⟩,
    (stunting_normal_partition exDf (statsFor exDf "A")
      (List.mem_map.mpr ⟨"A", by decide, rfl⟩)).1⟩

/-- Claim C8: the sidebar filter keeps exactly the records passing both
dimension predicates, where a selection containing `'Semua'` or an empty
selection imposes no restriction along its dimension; as a pure function
of the input list it leaves the original record list untouched. -/
theorem filter_semantics :
    ∀ (df : List Record) (selKec selPus : List String),
      filterRecords df selKec selPus =
        df.filter (fun r =>
          (if selKec.contains "Semua" || selKec.isEmpty then true
           else selKec.contains r.nama_kecamatan) &&
          (if selPus.contains "Semua" || selPus.isEmpty then true
           else selPus.contains r.nama_puskesmas)) := by
  intro df selKec selPus
  unfold filterRecords
  cases hk : selKec.contains "Semua" <;> cases hke : selKec.isEmpty <;>
    cases hp : selPus.contains "Semua" <;> cases hpe : selPus.isEmpty <;>
      simp [hk, hke, hp, hpe, List.filter_filter]
  exact List.filter_congr fun a _ => Bool.and_comm _ _

/-- Claim C10: when the filtered frame is empty the displayed statistics
are the aggregation of the full unfiltered frame; only a nonempty
filtered frame is re-aggregated. -/
theorem empty_filter_fallback :
    ∀ (df : List Record) (selKec selPus : List String),
      (filterRecords df selKec selPus = [] →
        displayStats df selKec selPus = aggregate_by_kecamatan df) ∧
      (filterRecords df selKec selPus ≠ [] →
        displayStats df selKec selPus =
          aggregate_by_kecamatan (filterRecords df selKec selPus)) := by
  intro df selKec selPus
  constructor
  · intro h
    unfold displayStats
    rw [h]
    rfl
  · intro h
    unfold displayStats
    rw [if_pos]
    simpa using h

/-- Witness for C10: a selection matching no record falls back to the
full-frame statistics. -/
theorem empty_filter_fallback_witness :
    filterRecords [mkRecord "A"] ["B"] ["Semua"] = [] ∧
    displayStats [mkRecord "A"] ["B"] ["Semua"] =
      aggregate_by_kecamatan [mkRecord "A"] :=
  ⟨by decide, (empty_filter_fallback [mkRecord "A"] ["B"] ["Semua"]).1 (by decide)⟩

/-- Claim C3 counterexample: no canonicalization is applied before
comparison. The names `' Foo '` and `'FOO'` agree under the spec's
`normalize` (trim then uppercase), yet the aggregation groups them as two
distinct keys, keeping each raw spelling — so names are not normalized
before grouping, contradicting the claim. -/
theorem normalization_absent_cex :
    normalizeSpec " Foo " = normalizeSpec "FOO" ∧
    (aggregate_by_kecamatan [mkRecord " Foo ", mkRecord "FOO"]).map
      (fun st => st.kecamatan) = [" Foo ", "FOO"] ∧
    " Foo " ≠ "FOO" := by
  refine ⟨by decide, by decide, by decide⟩

/-- Claim C3 amended: `app.py` applies no normalization at all — the
aggregation groups records by the raw `nama_kecamatan` string, so any two
distinct raw spellings (even ones differing only in case or surrounding
whitespace) form distinct groups, and the map join's row matcher compares
the raw `WADMKC` value with the raw stats key by plain string equality. -/
theorem raw_key_grouping :
    ∀ s t : String, s ≠ t →
      (aggregate_by_kecamatan [mkRecord s, mkRecord t]).map
        (fun st => st.kecamatan) = [s, t] ∧
      valEqStr (Val.str s) t = false := by
  intro s t h
  constructor
  · simp [aggregate_by_kecamatan, uniqueFirst, uniqueFirstAux, mkRecord, statsFor,
      Ne.symm h]
  · simp only [valEqStr]
    exact beq_eq_false_iff_ne.mpr (Ne.symm h)

/-- Witness for the amended C3 at the normalization-equivalent pair
`' Foo '` / `'FOO'`. -/
theorem raw_key_grouping_witness :
    " Foo " ≠ "FOO" ∧
    (aggregate_by_kecamatan [mkRecord " Foo ", mkRecord "FOO"]).map
      (fun st => st.kecamatan) = [" Foo ", "FOO"] :=
  ⟨by decide, (raw_key_grouping " Foo " "FOO" (by decide)).1⟩

/-- Claim C4 counterexample: the merge call returns successfully on a
one-feature catalog, yet the catalog object afterwards differs from its
input state — `create_choropleth_map` writes the derived statistics keys
straight into the stored feature's `properties`, so the catalog's
features are mutated in place, contradicting the claim. -/
theorem join_mutates_catalog_cex :
    (create_choropleth_map_merge gA []).isSome ∧
    create_choropleth_map_merge gA [] ≠ some gA := by
  refine ⟨by decide, by decide⟩

/-- Claim C4 amended: the merge writes the four derived statistics keys
into each stored feature's `properties` dict in place (so the catalog is
changed by the call), while preserving every feature's geometry and its
`WADMKC` name property. -/
theorem join_writes_props_in_place :
    ∀ (g : GeoJson) (stats : List KecStats) (g' : GeoJson),
      create_choropleth_map_merge g stats = some g' →
      g'.features.map Feature.geometry = g.features.map Feature.geometry ∧
      featureKeys g' = featureKeys g ∧
      ∀ f' ∈ g'.features, (getProp f'.properties "kategori").isSome := by
  intro g stats g' h
  have h2 := mergeFeatures_forall2 stats _ _ (merge_some_elim h)
  refine ⟨?_, ?_, ?_⟩
  · exact forall2_map_eq (fun f f' hj => joinFeature_geometry hj) h2
  · exact forall2_map_eq (fun f f' hj => joinFeature_wadmkc hj) h2
  · intro f' hf'
    rcases forall2_mem_right h2 f' hf' with ⟨f, _, hj⟩
    exact joinFeature_kategori_isSome hj

/-- Witness for the amended C4: the concrete post-state of `gA`. -/
theorem join_writes_props_in_place_witness :
    create_choropleth_map_merge gA [] = some gAJoined ∧
    gAJoined.features.map Feature.geometry = gA.features.map Feature.geometry :=
  ⟨by decide, (join_writes_props_in_place gA [] gAJoined (by decide)).1⟩

/-- Claim C5 counterexample: the joined output carries one entry per
catalog feature, not per distinct key. On a catalog with two features
both named `A`, the key `A` appears twice in the joined output, not
exactly once as the claim states. -/
theorem join_duplicate_key_cex :
    (create_choropleth_map_merge gDup []).map
      (fun g => (featureKeys g).count (some (Val.str "A"))) = some 2 ∧
    (featureKeys gDup).count (some (Val.str "A")) = 2 := by
  refine ⟨by decide, by decide⟩

/-- Claim C5 amended: the joined output's key sequence is exactly the
catalog's feature-key sequence, so when the catalog's feature keys are
pairwise distinct every catalog key appears exactly once; a feature whose
key matches no stats row still appears, carrying the zero-filled
statistics (`stunting_count = 0`, `persentase_stunting = 0`,
`total_balita = 0`) and category `'Tidak Ada Data'` (No Data). -/
theorem join_completeness_nodup :
    ∀ (g : GeoJson) (stats : List KecStats) (g' : GeoJson),
      create_choropleth_map_merge g stats = some g' →
      featureKeys g' = featureKeys g ∧
      ((featureKeys g).Nodup →
        ∀ kv ∈ featureKeys g, (featureKeys g').count kv = 1) ∧
      (∀ f' ∈ g'.features, ∀ kv, getProp f'.properties "WADMKC" = some kv →
        stats.filter (fun s => valEqStr kv s.kecamatan) = [] →
        getProp f'.properties "stunting_count" = some (.int 0) ∧
        getProp f'.properties "persentase_stunting" = some (.int 0) ∧
        getProp f'.properties "total_balita" = some (.int 0) ∧
        getProp f'.properties "kategori" = some (.str "Tidak Ada Data")) := by
  intro g stats g' h
  have h2 := mergeFeatures_forall2 stats _ _ (merge_some_elim h)
  have hkeys : featureKeys g' = featureKeys g :=
    forall2_map_eq (fun f f' hj => joinFeature_wadmkc hj) h2
  refine ⟨hkeys, ?_, ?_⟩
  · intro hnd kv hkv
    rw [hkeys]
    exact count_eq_one_of_mem_nodup hnd hkv
  · intro f' hf' kv hkv hmiss
    rcases forall2_mem_right h2 f' hf' with ⟨f, _, hj⟩
    have hkvf : getProp f.properties "WADMKC" = some kv := by
      rw [← joinFeature_wadmkc hj]; exact hkv
    exact joinFeature_zero_fill hj hkvf hmiss

/-- Witness for the amended C5 on the one-feature catalog `gA` with no
matching stats: key `A` appears exactly once and the feature is
zero-filled. -/
theorem join_completeness_nodup_witness :
    (featureKeys gAJoined).count (some (Val.str "A")) = 1 ∧
    getProp (⟨"geomA", [("WADMKC", Val.str "A"), ("stunting_count", Val.int 0),
      ("persentase_stunting", Val.int 0), ("total_balita", Val.int 0),
      ("kategori", Val.str "Tidak Ada Data")]⟩ : Feature).properties
      "kategori" = some (.str "Tidak Ada Data") :=
  ⟨(join_completeness_nodup gA [] gAJoined (by decide)).2.1 (by decide)
      (some (Val.str "A")) (by decide),
    ((join_completeness_nodup gA [] gAJoined (by decide)).2.2
      ⟨"geomA", [("WADMKC", Val.str "A"), ("stunting_count", Val.int 0),
        ("persentase_stunting", Val.int 0), ("total_balita", Val.int 0),
        ("kategori", Val.str "Tidak Ada Data")]⟩ (by decide)
      (Val.str "A") (by decide) (by decide)).2.2.2⟩

/-- Claim C6 counterexample: the merge's entire observable result is
identical whether or not a statistics row with no catalog match is
present — on the catalog `gA` (only key `A`), passing the unmatched stats
row keyed `B` produces exactly the same output as passing no stats at
all. Were an `unmatched_stats_keys` set computed and returned as the
claim states, the two results would differ (`{B}` versus `{}`); the code
computes no such diagnostics. -/
theorem unmatched_stats_unreported_cex :
    create_choropleth_map_merge gA [exStatB] = create_choropleth_map_merge gA [] ∧
    (create_choropleth_map_merge gA [exStatB]).isSome := by
  refine ⟨by decide, by decide⟩

/-- Claim C6 amended: the join returns no unmatched-key diagnostics;
statistics rows whose key matches no catalog feature are silently
ignored — appending them to the stats table leaves the merge result
unchanged, so such keys appear nowhere in the joined output. -/
theorem unmatched_stats_silently_ignored :
    ∀ (g : GeoJson) (stats extra : List KecStats),
      (∀ st ∈ extra, ∀ f ∈ g.features, ∀ kv,
        getProp f.properties "WADMKC" = some kv →
        valEqStr kv st.kecamatan = false) →
      create_choropleth_map_merge g (stats ++ extra) =
        create_choropleth_map_merge g stats := by
  intro g stats extra hyp
  unfold create_choropleth_map_merge
  rw [mergeFeatures_append_no_match stats extra g.features hyp]

/-- Witness for the amended C6: the stats row keyed `B` matches nothing in
`gA` and leaves the merge unchanged. -/
theorem unmatched_stats_silently_ignored_witness :
    create_choropleth_map_merge gA ([] ++ [exStatB]) =
      create_choropleth_map_merge gA [] :=
  unmatched_stats_silently_ignored gA [] [exStatB] (by
    intro st hst f hf kv hkv
    rcases List.mem_singleton.mp hst with rfl
    have hfeq : f = ⟨"geomA", [("WADMKC", Val.str "A")]⟩ :=
      List.mem_singleton.mp hf
    subst hfeq
    simp only [getProp, gA] at hkv
    have : Val.str "A" = kv := by simpa using hkv
    subst this
    decide)

/-- Claim C7 counterexample: a feature that lacks the `WADMKC` property
(here it carries its name only under the alternate `WADMKEC` key) makes
the merge fail outright — the direct subscript on line 115 raises
`KeyError` — instead of resolving the name through a fallback list or an
empty-string default as the claim states. -/
theorem wadmkc_keyerror_cex :
    create_choropleth_map_merge gNoKey [] = none ∧ gNoKey.features ≠ [] := by
  refine ⟨by decide, by decide⟩

/-- Claim C7 amended: name resolution reads only the single property key
`WADMKC` — the merge succeeds exactly when every feature has that
property, and a feature missing it aborts the whole merge (`KeyError`);
there is no alternate-key fallback and no empty-string default. -/
theorem wadmkc_only_resolution :
    ∀ (g : GeoJson) (stats : List KecStats),
      (create_choropleth_map_merge g stats).isSome ↔
        ∀ f ∈ g.features, (getProp f.properties "WADMKC").isSome := by
  intro g stats
  rw [← mergeFeatures_isSome stats g.features]
  unfold create_choropleth_map_merge
  cases mergeFeatures stats g.features <;> simp
